/-
  Verification of the pressure-volume loop simulator (PVLoop.jsx).

  The hemodynamic engine is embedded shallowly over the reals:
  JavaScript numbers become real numbers, Math.exp / Math.log / Math.sin
  become Real.exp / Real.log / Real.sin, and Math.min / Math.max become
  min / max.  Each definition mirrors the corresponding source function.
-/
import Mathlib

noncomputable section

/-- Unstressed ventricular volume, x-intercept of the ESPVR (source constant V0). -/
def V0 : ℝ := 10

/-- EDPVR scale coefficient (source constant A_ED). -/
def A_ED : ℝ := 0.5

/-- Reference compliance coefficient (source constant REF_ALPHA). -/
def REF_ALPHA : ℝ := 0.02

/-- The hemodynamic state record returned by the solvers:
fields EDV, ESV, ESP, SV, EF, LVEDP, esvP0 as in the source objects. -/
structure HemoState where
  EDV : ℝ
  ESV : ℝ
  ESP : ℝ
  SV : ℝ
  EF : ℝ
  LVEDP : ℝ
  esvP0 : ℝ

/-- Source function getEffectiveEDV(sliderEDV, alpha): compliance-driven EDV
with the identity fast path near REF_ALPHA and the linear fallback for
alpha ≤ 0.001. -/
def getEffectiveEDV (sliderEDV alpha : ℝ) : ℝ :=
  if |alpha - REF_ALPHA| < 0.001 then sliderEDV
  else
    let refLVEDP := A_ED * (Real.exp (REF_ALPHA * sliderEDV) - 1)
    if alpha ≤ 0.001 then min (sliderEDV * 1.3) 200
    else
      let edv := Real.log (refLVEDP / A_ED + 1) / alpha
      max 50 (min edv 200)

/-- Source function computeState(Ees, EDV, Ea, alpha): the direct-mode solver. -/
def computeState (Ees EDV Ea alpha : ℝ) : HemoState :=
  let ESV := (Ea * EDV + Ees * V0) / (Ees + Ea)
  let ESP := Ees * (ESV - V0)
  let SV := EDV - ESV
  let EF := SV / EDV * 100
  let LVEDP := A_ED * (Real.exp (alpha * EDV) - 1)
  let esvP0 := A_ED * (Real.exp (alpha * ESV) - 1)
  ⟨EDV, ESV, ESP, SV, EF, LVEDP, esvP0⟩

/-- Source function computePinned(Ees, sliderEDV, alpha, refESP, refLVEDP):
the manual-mode solver with pinned ESP and LVEDP. -/
def computePinned (Ees sliderEDV alpha refESP refLVEDP : ℝ) : HemoState :=
  let EDV := max 50 (min (Real.log (refLVEDP / A_ED + 1) / alpha) sliderEDV)
  let ESV := min (refESP / Ees + V0) (EDV - 1)
  let ESP := refESP
  let SV := EDV - ESV
  let EF := SV / EDV * 100
  let LVEDP := A_ED * (Real.exp (alpha * EDV) - 1)
  let esvP0 := A_ED * (Real.exp (alpha * ESV) - 1)
  ⟨EDV, ESV, ESP, SV, EF, LVEDP, esvP0⟩

/-- Source function edpvr(V, alpha): end-diastolic pressure-volume relation. -/
def edpvr (V alpha : ℝ) : ℝ := A_ED * (Real.exp (alpha * V) - 1)

/-- Source function espvr(V, Ees): end-systolic pressure-volume relation. -/
def espvr (V Ees : ℝ) : ℝ := Ees * (V - V0)

/-- The four physiological parameters of a scenario entry of the SC table
(presentation metadata omitted). -/
structure ScenarioParams where
  Ees : ℝ
  EDV : ℝ
  Ea : ℝ
  alpha : ℝ

/-- Scenario keys of the SC table. -/
inductive ScKey
  | normal | hfref | hfpef | as_ | ar | ms | mr | hemorrhage | fluid | inotrope
  deriving DecidableEq

/-- Numeric parameters of the SC scenario table. -/
def scParams : ScKey → ScenarioParams
  | .normal => ⟨2.5, 120, 2.0, 0.02⟩
  | .hfref => ⟨1.0, 180, 2.2, 0.02⟩
  | .hfpef => ⟨3.0, 105, 2.2, 0.035⟩
  | .as_ => ⟨3.0, 130, 3.5, 0.02⟩
  | .ar => ⟨2.5, 180, 1.5, 0.018⟩
  | .ms => ⟨2.5, 90, 2.0, 0.02⟩
  | .mr => ⟨2.5, 160, 1.2, 0.02⟩
  | .hemorrhage => ⟨2.8, 85, 2.5, 0.02⟩
  | .fluid => ⟨2.5, 150, 2.0, 0.02⟩
  | .inotrope => ⟨4.0, 120, 2.0, 0.02⟩

/-- Source NORM = SC.normal. -/
def NORM : ScenarioParams := scParams ScKey.normal

/-- Source normSt: the baseline state computed once from the normal scenario. -/
def normSt : HemoState := computeState NORM.Ees NORM.EDV NORM.Ea NORM.alpha

/-- A sample of phase a (diastolic filling along the EDPVR) of makeLoop,
index i of 0..20. -/
def fillingSample (st : HemoState) (alpha : ℝ) (i : ℕ) : ℝ × ℝ :=
  let v := st.ESV + (st.EDV - st.ESV) * ((i : ℝ) / 20)
  let p := edpvr v alpha
  (v, min p 60)

/-- A sample of phase b (isovolumetric contraction) of makeLoop, index i of 0..12. -/
def contractionSample (st : HemoState) (i : ℕ) : ℝ × ℝ :=
  let f := (i : ℝ) / 12
  let p := min st.LVEDP 60 + (st.ESP - min st.LVEDP 60) * f
  (st.EDV, p)

/-- A sample of phase c (ejection) of makeLoop, index i of 0..20:
sinusoidal bow above ESP, clamped by the ESPVR margin and the ESP - 15 floor. -/
def ejectionSample (st : HemoState) (Ees : ℝ) (i : ℕ) : ℝ × ℝ :=
  let f := (i : ℝ) / 20
  let v := st.EDV - (st.EDV - st.ESV) * f
  let straightP := st.ESP
  let peakBow : ℝ := 8
  let bow := peakBow * Real.sin (f * Real.pi)
  let espvrAtV := espvr v Ees
  let p := min (straightP + bow) (espvrAtV + 5)
  (v, max p (st.ESP - 15))

/-- A sample of phase d (isovolumetric relaxation) of makeLoop, index i of 0..12. -/
def relaxationSample (st : HemoState) (i : ℕ) : ℝ × ℝ :=
  let f := (i : ℝ) / 12
  let p := st.ESP - (st.ESP - min st.esvP0 30) * f
  (st.ESV, p)

/-- The point list pts built by makeLoop(st, Ees, alpha): the four phases
a, b, c, d concatenated in order, with the source's inclusive loop bounds
(21, 13, 21 and 13 samples). -/
def makeLoopPts (st : HemoState) (Ees alpha : ℝ) : List (ℝ × ℝ) :=
  (List.range 21).map (fillingSample st alpha)
    ++ (List.range 13).map (contractionSample st)
    ++ (List.range 21).map (ejectionSample st Ees)
    ++ (List.range 13).map (relaxationSample st)

/-- The slider keys of the manual controls ("Ees", "EDV", "Ea", "alpha"). -/
inductive SliderKey
  | Ees | EDV | Ea | alpha
  deriving DecidableEq

/-- The sl state object: the four slider values plus the sticky _eaMoved flag. -/
structure Sliders where
  Ees : ℝ
  EDV : ℝ
  Ea : ℝ
  alpha : ℝ
  eaMoved : Bool

/-- The mode state: "scenario" or "manual". -/
inductive Mode
  | scenario | manual
  deriving DecidableEq

/-- The component state: scKey, step, sl and mode. -/
structure UIState where
  scKey : ScKey
  step : ℕ
  sl : Sliders
  mode : Mode

/-- The computed-property update [k]: v on the sl object (eaMoved untouched). -/
def setSlider (sl : Sliders) (k : SliderKey) (v : ℝ) : Sliders :=
  match k with
  | .Ees => { sl with Ees := v }
  | .EDV => { sl with EDV := v }
  | .Ea => { sl with Ea := v }
  | .alpha => { sl with alpha := v }

/-- The slide(k, v) callback: from scenario mode it snapshots the scenario
parameters and sets _eaMoved to (k = Ea); from manual mode it keeps _eaMoved
sticky, setting it once k = Ea.  Both branches then set mode to manual. -/
def slide (s : UIState) (k : SliderKey) (v : ℝ) : UIState :=
  let sl' :=
    if s.mode = Mode.scenario then
      let snap := scParams s.scKey
      setSlider ⟨snap.Ees, snap.EDV, snap.Ea, snap.alpha, decide (k = SliderKey.Ea)⟩ k v
    else
      setSlider { s.sl with
        eaMoved := if k = SliderKey.Ea then true else s.sl.eaMoved } k v
  { s with sl := sl', mode := Mode.manual }

/-- The pickSc(k) callback: select a scenario, reset the step, return to
scenario mode (the sl object is left as is). -/
def pickSc (s : UIState) (k : ScKey) : UIState :=
  { s with scKey := k, step := 0, mode := Mode.scenario }

/-- The pv useMemo dispatch: scenario mode runs computeState on the scenario
parameters; manual mode runs computeState on the sliders once _eaMoved holds,
and otherwise computePinned against the baseline ESP and LVEDP. -/
def pv (s : UIState) : HemoState :=
  if s.mode = Mode.scenario then
    let sc := scParams s.scKey
    computeState sc.Ees sc.EDV sc.Ea sc.alpha
  else if s.sl.eaMoved then computeState s.sl.Ees s.sl.EDV s.sl.Ea s.sl.alpha
  else computePinned s.sl.Ees s.sl.EDV s.sl.alpha normSt.ESP normSt.LVEDP

/-- Source dispLVEDP = Math.min(pv.LVEDP, 50): the capped LVEDP readout. -/
def dispLVEDP (st : HemoState) : ℝ := min st.LVEDP 50

/-- The trend arrow of the D delta component: up for red, down for blue. -/
inductive Indicator
  | up | down
  deriving DecidableEq

/-- The D component: no indicator when |val - r| < 0.5, otherwise the sign
of val - r. -/
def D (val r : ℝ) : Option Indicator :=
  if |val - r| < 0.5 then none
  else if 0 < val - r then some Indicator.up else some Indicator.down

/-- One entry of the readout grid: label, displayed value v, baseline
reference r handed to the D component. -/
structure Readout where
  label : String
  v : ℝ
  r : ℝ

/-- The readout grid rows in source order: EDV, LVEDP (capped via dispLVEDP),
ESV, Afterload (ESP), Stroke Vol (SV), Ejection Fr (EF), each paired with
its normSt baseline. -/
def readouts (st : HemoState) : List Readout :=
  [⟨"EDV", st.EDV, normSt.EDV⟩,
   ⟨"LVEDP", dispLVEDP st, normSt.LVEDP⟩,
   ⟨"ESV", st.ESV, normSt.ESV⟩,
   ⟨"Afterload", st.ESP, normSt.ESP⟩,
   ⟨"Stroke Vol", st.SV, normSt.SV⟩,
   ⟨"Ejection Fr", st.EF, normSt.EF⟩]

/-- An arbitrary hemodynamic state used as a concrete counterexample input:
low contractility with high afterload (ESP = 200 with Ees = 0.5). -/
def badSt : HemoState := ⟨120, 50, 200, 70, 58, 5, 3⟩

/-- C1 counterexample: at the baseline parameters the solver's EF equals
1375/27 ≈ 50.926, which differs from the claimed 50.9 by more than 1e-2. -/
theorem c1_counterexample :
    ¬ (|(computeState 2.5 120 2.0 0.02).EF - 50.9| ≤ 0.01) := by
  norm_num [computeState, V0, abs_le]

/-- C1 (amended): at the baseline parameters Ees = 2.5, EDV = 120, Ea = 2.0,
alpha = 0.02, computeState returns ESV = 58.89, ESP = 122.22, SV = 61.11 and
EF = 50.93, each reproduced to within 1e-2. -/
theorem c1_baseline_values :
    |(computeState 2.5 120 2.0 0.02).ESV - 58.89| ≤ 0.01 ∧
    |(computeState 2.5 120 2.0 0.02).ESP - 122.22| ≤ 0.01 ∧
    |(computeState 2.5 120 2.0 0.02).SV - 61.11| ≤ 0.01 ∧
    |(computeState 2.5 120 2.0 0.02).EF - 50.93| ≤ 0.01 := by
  norm_num [computeState, V0, abs_le]

/-- C2: with Ees > 0, Ea > 0 and EDV > V0, the direct-mode solver returns
ESV strictly between V0 and EDV, and SV equal to EDV - ESV exactly. -/
theorem c2_direct_solver_bounds (Ees EDV Ea alpha : ℝ)
    (hE : 0 < Ees) (hA : 0 < Ea) (hV : V0 < EDV) :
    V0 < (computeState Ees EDV Ea alpha).ESV ∧
    (computeState Ees EDV Ea alpha).ESV < EDV ∧
    (computeState Ees EDV Ea alpha).SV =
      EDV - (computeState Ees EDV Ea alpha).ESV := by
  have hden : 0 < Ees + Ea := by linarith
  refine ⟨?_, ?_, rfl⟩
  · show V0 < (Ea * EDV + Ees * V0) / (Ees + Ea)
    rw [lt_div_iff₀ hden]
    nlinarith [mul_pos hA (sub_pos.mpr hV)]
  · show (Ea * EDV + Ees * V0) / (Ees + Ea) < EDV
    rw [div_lt_iff₀ hden]
    nlinarith [mul_pos hE (sub_pos.mpr hV)]

/-- C2 witness: the bounds hold at the baseline input 2.5, 120, 2.0, 0.02. -/
theorem c2_witness :
    (0:ℝ) < 2.5 ∧ (0:ℝ) < 2.0 ∧ V0 < (120:ℝ) ∧
    (V0 < (computeState 2.5 120 2.0 0.02).ESV ∧
     (computeState 2.5 120 2.0 0.02).ESV < 120 ∧
     (computeState 2.5 120 2.0 0.02).SV =
       120 - (computeState 2.5 120 2.0 0.02).ESV) :=
  ⟨by norm_num, by norm_num, by norm_num [V0],
   c2_direct_solver_bounds 2.5 120 2.0 0.02 (by norm_num) (by norm_num)
     (by norm_num [V0])⟩

/-- C3: for every input, the pinned-mode solver returns ESV ≤ EDV - 1
(the degenerate stroke-volume guard of computePinned). -/
theorem c3_pinned_esv_cap (Ees sliderEDV alpha refESP refLVEDP : ℝ) :
    (computePinned Ees sliderEDV alpha refESP refLVEDP).ESV ≤
      (computePinned Ees sliderEDV alpha refESP refLVEDP).EDV - 1 :=
  min_le_right _ _

/-- C6: getEffectiveEDV returns sliderEDV unchanged when alpha is within
0.001 of REF_ALPHA, and returns min(sliderEDV * 1.3, 200) when
alpha ≤ 0.001, guarding the division by alpha. -/
theorem c6_getEffectiveEDV_guards (sliderEDV alpha : ℝ) :
    (|alpha - REF_ALPHA| < 0.001 →
      getEffectiveEDV sliderEDV alpha = sliderEDV) ∧
    (alpha ≤ 0.001 →
      getEffectiveEDV sliderEDV alpha = min (sliderEDV * 1.3) 200) := by
  constructor
  · intro h
    simp [getEffectiveEDV, h]
  · intro h
    have hfar : ¬ |alpha - REF_ALPHA| < 0.001 := by
      rw [not_lt, abs_sub_comm]
      have h1 : (0.001:ℝ) ≤ REF_ALPHA - alpha := by
        rw [REF_ALPHA]; linarith
      exact h1.trans (le_abs_self _)
    simp [getEffectiveEDV, hfar, h]

/-- C6 witness: the identity path at alpha = 0.02 and the fallback at
alpha = 0, both for sliderEDV = 120. -/
theorem c6_witness :
    getEffectiveEDV 120 0.02 = 120 ∧
    getEffectiveEDV 120 0 = min (120 * 1.3) 200 :=
  ⟨(c6_getEffectiveEDV_guards 120 0.02).1 (by norm_num [REF_ALPHA]),
   (c6_getEffectiveEDV_guards 120 0).2 (by norm_num)⟩

/-- C8 counterexample: at EDV = V0 = 10 (with Ees rising from 1 to 2 and
Ea = 2) the solver's ESV stays at 10 and EF stays at 0, so the strict
monotonicity claimed without an EDV > V0 hypothesis fails. -/
theorem c8_counterexample :
    ¬ ((computeState 2 10 2 0.02).ESV < (computeState 1 10 2 0.02).ESV ∧
       (computeState 1 10 2 0.02).EF < (computeState 2 10 2 0.02).EF) := by
  norm_num [computeState, V0]

/-- C8 (amended): holding EDV, Ea, alpha fixed with Ees, Ea > 0 and
EDV > V0, increasing Ees strictly decreases the solver's ESV and strictly
increases its EF. -/
theorem c8_ees_monotonicity (e₁ e₂ EDV Ea alpha : ℝ)
    (h1 : 0 < e₁) (h12 : e₁ < e₂) (hA : 0 < Ea) (hV : V0 < EDV) :
    (computeState e₂ EDV Ea alpha).ESV < (computeState e₁ EDV Ea alpha).ESV ∧
    (computeState e₁ EDV Ea alpha).EF < (computeState e₂ EDV Ea alpha).EF := by
  have hd1 : 0 < e₁ + Ea := by linarith
  have hd2 : 0 < e₂ + Ea := by linarith
  have hEDV : 0 < EDV := lt_trans (by norm_num [V0]) hV
  have hESV : (Ea * EDV + e₂ * V0) / (e₂ + Ea) <
      (Ea * EDV + e₁ * V0) / (e₁ + Ea) := by
    rw [div_lt_div_iff₀ hd2 hd1]
    nlinarith [mul_pos hA (sub_pos.mpr hV), sub_pos.mpr h12]
  refine ⟨hESV, ?_⟩
  show (EDV - (Ea * EDV + e₁ * V0) / (e₁ + Ea)) / EDV * 100 <
    (EDV - (Ea * EDV + e₂ * V0) / (e₂ + Ea)) / EDV * 100
  rw [mul_lt_mul_right (by norm_num : (0:ℝ) < 100), div_lt_div_iff_of_pos_right hEDV]
  linarith

/-- C8 witness: monotonicity at Ees 2.5 vs 3 with EDV = 120, Ea = 2. -/
theorem c8_witness :
    (0:ℝ) < 2.5 ∧ (2.5:ℝ) < 3 ∧ (0:ℝ) < 2 ∧ V0 < (120:ℝ) ∧
    ((computeState 3 120 2 0.02).ESV < (computeState 2.5 120 2 0.02).ESV ∧
     (computeState 2.5 120 2 0.02).EF < (computeState 3 120 2 0.02).EF) :=
  ⟨by norm_num, by norm_num, by norm_num, by norm_num [V0],
   c8_ees_monotonicity 2.5 3 120 2 0.02 (by norm_num) (by norm_num)
     (by norm_num) (by norm_num [V0])⟩

/-- C4 counterexample: on the state badSt (ESP = 200) with Ees = 0.5, the
first ejection sample of makeLoop is clamped up to ESP - 15 = 185, which
exceeds the ESPVR value at its volume plus the 5-unit margin (60). -/
theorem c4_counterexample :
    ¬ ((ejectionSample badSt 0.5 0).2 ≤
        espvr (ejectionSample badSt 0.5 0).1 0.5 + 5) := by
  norm_num [ejectionSample, badSt, espvr, V0, min_def, max_def]

/-- C4 (amended): every ejection-phase sample of makeLoop has pressure at
least ESP - 15 and at most the larger of espvr(v) + 5 and ESP - 15; the
ESPVR margin alone bounds it only when it is at least the floor. -/
theorem c4_ejection_clamps (st : HemoState) (Ees : ℝ) (i : ℕ) (hi : i < 21) :
    st.ESP - 15 ≤ (ejectionSample st Ees i).2 ∧
    (ejectionSample st Ees i).2 ≤
      max (espvr (ejectionSample st Ees i).1 Ees + 5) (st.ESP - 15) := by
  simp only [ejectionSample]
  exact ⟨le_max_right _ _, max_le_max (min_le_right _ _) le_rfl⟩

/-- C4 witness: the clamp bounds at the baseline state, sample 0. -/
theorem c4_witness :
    0 < 21 ∧
    (normSt.ESP - 15 ≤ (ejectionSample normSt 2.5 0).2 ∧
     (ejectionSample normSt 2.5 0).2 ≤
       max (espvr (ejectionSample normSt 2.5 0).1 2.5 + 5) (normSt.ESP - 15)) :=
  ⟨by norm_num, c4_ejection_clamps normSt 2.5 0 (by norm_num)⟩

/-- C7: the makeLoop point list starts its filling phase at volume ESV
(index 0) and ends it at volume EDV (index 20); every isovolumetric
contraction sample (indices 21..33) sits at volume EDV and every
isovolumetric relaxation sample (indices 55..67) at volume ESV, in the
phase order filling, contraction, ejection, relaxation. -/
theorem c7_loop_geometry (st : HemoState) (Ees alpha : ℝ) (i j : ℕ)
    (hi : i < 13) (hj : j < 13) :
    ((makeLoopPts st Ees alpha)[0]?.map Prod.fst) = some st.ESV ∧
    ((makeLoopPts st Ees alpha)[20]?.map Prod.fst) = some st.EDV ∧
    ((makeLoopPts st Ees alpha)[21 + i]?.map Prod.fst) = some st.EDV ∧
    ((makeLoopPts st Ees alpha)[55 + j]?.map Prod.fst) = some st.ESV := by
  have la : ((List.range 21).map (fillingSample st alpha)).length = 21 := by simp
  have lab : ((List.range 21).map (fillingSample st alpha)
      ++ (List.range 13).map (contractionSample st)).length = 34 := by simp
  have labc : ((List.range 21).map (fillingSample st alpha)
      ++ (List.range 13).map (contractionSample st)
      ++ (List.range 21).map (ejectionSample st Ees)).length = 55 := by simp
  refine ⟨?_, ?_, ?_, ?_⟩
  · rw [makeLoopPts, List.getElem?_append_left (by rw [labc]; omega),
      List.getElem?_append_left (by rw [lab]; omega),
      List.getElem?_append_left (by rw [la]; omega),
      List.getElem?_map, List.getElem?_range (by omega)]
    simp [fillingSample]
  · rw [makeLoopPts, List.getElem?_append_left (by rw [labc]; omega),
      List.getElem?_append_left (by rw [lab]; omega),
      List.getElem?_append_left (by rw [la]; omega),
      List.getElem?_map, List.getElem?_range (by omega)]
    simp [fillingSample]
  · rw [makeLoopPts, List.getElem?_append_left (by rw [labc]; omega),
      List.getElem?_append_left (by rw [lab]; omega),
      List.getElem?_append_right (by rw [la]; omega), la,
      show 21 + i - 21 = i from by omega,
      List.getElem?_map, List.getElem?_range (by omega)]
    simp [contractionSample]
  · rw [makeLoopPts, List.getElem?_append_right (by rw [labc]; omega), labc,
      show 55 + j - 55 = j from by omega,
      List.getElem?_map, List.getElem?_range (by omega)]
    simp [relaxationSample]

/-- C7 witness: the geometry facts at the baseline state with i = j = 0. -/
theorem c7_witness :
    0 < 13 ∧
    (((makeLoopPts normSt 2.5 0.02)[0]?.map Prod.fst) = some normSt.ESV ∧
     ((makeLoopPts normSt 2.5 0.02)[20]?.map Prod.fst) = some normSt.EDV ∧
     ((makeLoopPts normSt 2.5 0.02)[21 + 0]?.map Prod.fst) = some normSt.EDV ∧
     ((makeLoopPts normSt 2.5 0.02)[55 + 0]?.map Prod.fst) = some normSt.ESV) :=
  ⟨by norm_num,
   c7_loop_geometry normSt 2.5 0.02 0 0 (by norm_num) (by norm_num)⟩

/-- C9: when alpha > 0, refLVEDP > 0 and the logarithmic EDV cap lies
between the floor 50 and sliderEDV, computePinned returns that cap as its
EDV and its LVEDP field round-trips to exactly refLVEDP. -/
theorem c9_lvedp_roundtrip (Ees sliderEDV alpha refESP refLVEDP : ℝ)
    (ha : 0 < alpha) (hr : 0 < refLVEDP)
    (h50 : 50 ≤ Real.log (refLVEDP / A_ED + 1) / alpha)
    (hs : Real.log (refLVEDP / A_ED + 1) / alpha ≤ sliderEDV) :
    (computePinned Ees sliderEDV alpha refESP refLVEDP).EDV =
      Real.log (refLVEDP / A_ED + 1) / alpha ∧
    (computePinned Ees sliderEDV alpha refESP refLVEDP).LVEDP = refLVEDP := by
  have hEDV : (computePinned Ees sliderEDV alpha refESP refLVEDP).EDV =
      Real.log (refLVEDP / A_ED + 1) / alpha := by
    show max 50 (min (Real.log (refLVEDP / A_ED + 1) / alpha) sliderEDV) = _
    rw [min_eq_left hs, max_eq_right h50]
  refine ⟨hEDV, ?_⟩
  show A_ED * (Real.exp (alpha *
    (max 50 (min (Real.log (refLVEDP / A_ED + 1) / alpha) sliderEDV))) - 1) =
    refLVEDP
  rw [min_eq_left hs, max_eq_right h50,
    mul_div_cancel₀ _ (ne_of_gt ha),
    Real.exp_log (by rw [A_ED]; positivity)]
  rw [A_ED]
  field_simp

/-- C9 witness: with alpha = 1, refLVEDP = A_ED * (e^50 - 1) and
sliderEDV = 60, the cap is exactly 50 and LVEDP round-trips. -/
theorem c9_witness :
    (0:ℝ) < 1 ∧ (0:ℝ) < A_ED * (Real.exp 50 - 1) ∧
    50 ≤ Real.log ((A_ED * (Real.exp 50 - 1)) / A_ED + 1) / 1 ∧
    Real.log ((A_ED * (Real.exp 50 - 1)) / A_ED + 1) / 1 ≤ 60 ∧
    ((computePinned 2.5 60 1 122 (A_ED * (Real.exp 50 - 1))).EDV =
       Real.log ((A_ED * (Real.exp 50 - 1)) / A_ED + 1) / 1 ∧
     (computePinned 2.5 60 1 122 (A_ED * (Real.exp 50 - 1))).LVEDP =
       A_ED * (Real.exp 50 - 1)) := by
  have hA : (A_ED * (Real.exp 50 - 1)) / A_ED + 1 = Real.exp 50 := by
    rw [A_ED]; field_simp
  have hlog : Real.log ((A_ED * (Real.exp 50 - 1)) / A_ED + 1) / 1 = 50 := by
    rw [hA, Real.log_exp]; norm_num
  have hr : (0:ℝ) < A_ED * (Real.exp 50 - 1) := by
    rw [A_ED]
    have : (1:ℝ) < Real.exp 50 := by
      rw [show (50:ℝ) = (50:ℝ) from rfl]
      calc (1:ℝ) = Real.exp 0 := (Real.exp_zero).symm
        _ < Real.exp 50 := Real.exp_lt_exp.mpr (by norm_num)
    nlinarith
  exact ⟨by norm_num, hr, by rw [hlog], by rw [hlog]; norm_num,
    c9_lvedp_roundtrip 2.5 60 1 122 (A_ED * (Real.exp 50 - 1))
      (by norm_num) hr (by rw [hlog]) (by rw [hlog]; norm_num)⟩

/-- C10: the LVEDP readout and the value its delta indicator compares
against baseline are the capped dispLVEDP = min(LVEDP, 50): when the
computed LVEDP exceeds 50 the displayed value is exactly 50 (understating
it), while the other five readouts pass their fields through uncapped. -/
theorem c10_lvedp_readout_cap (st : HemoState) (h : 50 < st.LVEDP) :
    dispLVEDP st = 50 ∧ dispLVEDP st < st.LVEDP ∧
    (readouts st).map Readout.v =
      [st.EDV, 50, st.ESV, st.ESP, st.SV, st.EF] ∧
    (readouts st).map (fun x => D x.v x.r) =
      [D st.EDV normSt.EDV, D 50 normSt.LVEDP, D st.ESV normSt.ESV,
       D st.ESP normSt.ESP, D st.SV normSt.SV, D st.EF normSt.EF] := by
  have hcap : dispLVEDP st = 50 := min_eq_right (le_of_lt h)
  refine ⟨hcap, by rw [hcap]; exact h, ?_, ?_⟩
  · simp [readouts, hcap]
  · simp [readouts, hcap]

/-- C10 witness: the cap at a state whose computed LVEDP is 60. -/
theorem c10_witness :
    (50:ℝ) < 60 ∧
    (dispLVEDP ⟨120, 50, 200, 70, 58, 60, 3⟩ = 50 ∧
     dispLVEDP ⟨120, 50, 200, 70, 58, 60, 3⟩ <
       (HemoState.mk 120 50 200 70 58 60 3).LVEDP ∧
     (readouts ⟨120, 50, 200, 70, 58, 60, 3⟩).map Readout.v =
       [120, 50, 50, 200, 70, 58] ∧
     (readouts ⟨120, 50, 200, 70, 58, 60, 3⟩).map (fun x => D x.v x.r) =
       [D 120 normSt.EDV, D 50 normSt.LVEDP, D 50 normSt.ESV,
        D 200 normSt.ESP, D 70 normSt.SV, D 58 normSt.EF]) :=
  ⟨by norm_num, c10_lvedp_readout_cap ⟨120, 50, 200, 70, 58, 60, 3⟩ (by norm_num)⟩

/-- One slide in manual mode with the sticky flag set keeps the state in
manual mode with the flag set. -/
lemma slide_keeps_manual_eaMoved (s : UIState) (k : SliderKey) (v : ℝ)
    (hm : s.mode = Mode.manual) (he : s.sl.eaMoved = true) :
    (slide s k v).mode = Mode.manual ∧ (slide s k v).sl.eaMoved = true := by
  have hne : ¬ s.mode = Mode.scenario := by rw [hm]; simp
  refine ⟨rfl, ?_⟩
  simp only [slide, hne, if_false]
  cases k <;> simp [setSlider, he]

/-- Any sequence of slides from a manual state with the sticky flag set
ends in a manual state with the flag still set. -/
lemma foldl_slides_keeps_direct (evs : List (SliderKey × ℝ)) :
    ∀ s : UIState, s.mode = Mode.manual → s.sl.eaMoved = true →
    ((evs.foldl (fun t kv => slide t kv.1 kv.2) s).mode = Mode.manual ∧
     (evs.foldl (fun t kv => slide t kv.1 kv.2) s).sl.eaMoved = true) := by
  induction evs with
  | nil => exact fun s hm he => ⟨hm, he⟩
  | cons kv rest ih =>
    intro s hm he
    have h := slide_keeps_manual_eaMoved s kv.1 kv.2 hm he
    exact ih _ h.1 h.2

/-- C5: the mode dispatch is a one-way in-session transition.  From any
manual state whose Ea control has been moved, every further sequence of
slider moves leaves the state in manual mode with the sticky flag set and
its pv computation is computeState (direct mode) on the current sliders;
and after re-selecting a scenario, a slide of any non-Ea control clears
the flag and pv computes via computePinned (pinned mode) again. -/
theorem c5_mode_state_machine (s : UIState)
    (hm : s.mode = Mode.manual) (he : s.sl.eaMoved = true) :
    (∀ evs : List (SliderKey × ℝ),
      ((evs.foldl (fun t kv => slide t kv.1 kv.2) s).mode = Mode.manual ∧
       (evs.foldl (fun t kv => slide t kv.1 kv.2) s).sl.eaMoved = true ∧
       pv (evs.foldl (fun t kv => slide t kv.1 kv.2) s) =
         computeState (evs.foldl (fun t kv => slide t kv.1 kv.2) s).sl.Ees
           (evs.foldl (fun t kv => slide t kv.1 kv.2) s).sl.EDV
           (evs.foldl (fun t kv => slide t kv.1 kv.2) s).sl.Ea
           (evs.foldl (fun t kv => slide t kv.1 kv.2) s).sl.alpha)) ∧
    (∀ (key : ScKey) (k : SliderKey) (v : ℝ), k ≠ SliderKey.Ea →
      ((slide (pickSc s key) k v).sl.eaMoved = false ∧
       pv (slide (pickSc s key) k v) =
         computePinned (slide (pickSc s key) k v).sl.Ees
           (slide (pickSc s key) k v).sl.EDV
           (slide (pickSc s key) k v).sl.alpha normSt.ESP normSt.LVEDP)) := by
  constructor
  · intro evs
    obtain ⟨h1, h2⟩ := foldl_slides_keeps_direct evs s hm he
    refine ⟨h1, h2, ?_⟩
    simp [pv, h1, h2]
  · intro key k v hk
    have hsl : (slide (pickSc s key) k v).sl.eaMoved = false := by
      cases k <;> simp_all [slide, pickSc, setSlider]
    have hmode2 : (slide (pickSc s key) k v).mode = Mode.manual := rfl
    refine ⟨hsl, ?_⟩
    simp [pv, hmode2, hsl]

/-- A concrete manual-mode state whose Ea control has been moved. -/
def s0 : UIState := ⟨ScKey.normal, 0, ⟨2.5, 120, 3.0, 0.02, true⟩, Mode.manual⟩

/-- C5 witness: the one-way transition facts at the concrete state s0,
with one further EDV slide and one scenario reselect plus Ees slide. -/
theorem c5_witness :
    s0.mode = Mode.manual ∧ s0.sl.eaMoved = true ∧
    (([((SliderKey.EDV : SliderKey), (100:ℝ))].foldl
        (fun t kv => slide t kv.1 kv.2) s0).mode = Mode.manual ∧
     ([((SliderKey.EDV : SliderKey), (100:ℝ))].foldl
        (fun t kv => slide t kv.1 kv.2) s0).sl.eaMoved = true ∧
     pv ([((SliderKey.EDV : SliderKey), (100:ℝ))].foldl
        (fun t kv => slide t kv.1 kv.2) s0) =
       computeState
         (([((SliderKey.EDV : SliderKey), (100:ℝ))].foldl
            (fun t kv => slide t kv.1 kv.2) s0)).sl.Ees
         (([((SliderKey.EDV : SliderKey), (100:ℝ))].foldl
            (fun t kv => slide t kv.1 kv.2) s0)).sl.EDV
         (([((SliderKey.EDV : SliderKey), (100:ℝ))].foldl
            (fun t kv => slide t kv.1 kv.2) s0)).sl.Ea
         (([((SliderKey.EDV : SliderKey), (100:ℝ))].foldl
            (fun t kv => slide t kv.1 kv.2) s0)).sl.alpha) ∧
    (SliderKey.Ees ≠ SliderKey.Ea) ∧
    ((slide (pickSc s0 ScKey.normal) SliderKey.Ees 3).sl.eaMoved = false ∧
     pv (slide (pickSc s0 ScKey.normal) SliderKey.Ees 3) =
       computePinned (slide (pickSc s0 ScKey.normal) SliderKey.Ees 3).sl.Ees
         (slide (pickSc s0 ScKey.normal) SliderKey.Ees 3).sl.EDV
         (slide (pickSc s0 ScKey.normal) SliderKey.Ees 3).sl.alpha
         normSt.ESP normSt.LVEDP) :=
  ⟨rfl, rfl,
   (c5_mode_state_machine s0 rfl rfl).1 [(SliderKey.EDV, 100)],
   by decide,
   (c5_mode_state_machine s0 rfl rfl).2 ScKey.normal SliderKey.Ees 3 (by decide)⟩

end
